import Mathlib

/-!
Shallow embedding of `src/main.rs` (a four-layer example: core / domain /
infra / api).

Modelling choices:
* Rust `i32` values are embedded as `Int`; `i32` addition is embedded as
  two's-complement wraparound addition (`wrap32`), the semantics of `+` on
  `i32` in Rust's release profile.  `isI32` is the range predicate of the
  type.
* `anyhow::Result<i32>` is embedded as `Except anyhow.Error Int`, with the
  opaque `anyhow::Error` embedded as its message string.
* `async fn` bodies contain a single `await` each; awaiting is the identity
  in this embedding, so an async item of type `Fn() -> Fut` with
  `Fut: Future<Output = Result<i32>>` becomes `Unit → Except anyhow.Error Int`.
* `domain.addTraced` is the same function instrumented with the list of
  calls it makes (to the injected fetch and to `core.add`), used to state
  the invocation-count and ordering claims; `domain.addTraced_fst` proves
  it computes the same result as `domain.add`.
-/

namespace anyhow

/-- `anyhow::Error`, embedded as its message string. -/
abbrev Error := String

end anyhow

instance {ε α : Type} [DecidableEq ε] [DecidableEq α] : DecidableEq (Except ε α) :=
  fun a b =>
    match a, b with
    | .ok x, .ok y => decidable_of_iff (x = y) (by simp)
    | .error e, .error f => decidable_of_iff (e = f) (by simp)
    | .ok _, .error _ => .isFalse (by simp)
    | .error _, .ok _ => .isFalse (by simp)

/-- The `i32` range predicate: `-2^31 ≤ n < 2^31`. -/
abbrev isI32 (n : Int) : Prop := -2147483648 ≤ n ∧ n < 2147483648

/-- Two's-complement wraparound into the `i32` range: the mathematical sum
reduced modulo `2^32` and reinterpreted as a signed 32-bit value.  This is
what Rust's `+` on `i32` computes in the release profile. -/
def wrap32 (n : Int) : Int :=
  (n + 2147483648) % 4294967296 - 2147483648

namespace core

/-- `core::add(x, y) -> i32`: `x + y` on `i32`. -/
def add (x y : Int) : Int :=
  wrap32 (x + y)

end core

/-- Observable calls made by `domain::add`: one per invocation of the
injected fetch operation, one per invocation of `core::add`. -/
inductive Event where
  | fetchCall
  | coreCall
deriving DecidableEq, Repr

namespace domain

/-- `domain::add(get_x, y)`: await the injected fetch, propagate its failure
with `?`, otherwise feed its value and `y` to `core::add`. -/
def add (get_x : Unit → Except anyhow.Error Int) (y : Int) :
    Except anyhow.Error Int := do
  let x ← get_x ()
  let result := core.add x y
  return result

/-- `domain::add`, instrumented with the sequence of calls it performs:
the fetch is called first; `core::add` is called only when the fetch
succeeded. -/
def addTraced (get_x : Unit → Except anyhow.Error Int) (y : Int) :
    Except anyhow.Error Int × List Event :=
  match get_x () with
  | .error e => (.error e, [.fetchCall])
  | .ok x => (.ok (core.add x y), [.fetchCall, .coreCall])

theorem addTraced_fst (get_x : Unit → Except anyhow.Error Int) (y : Int) :
    (addTraced get_x y).1 = add get_x y := by
  unfold addTraced add
  cases h : get_x () <;> simp [h, Bind.bind, Except.bind, Pure.pure, Except.pure]

end domain

namespace infra

/-- `infra::get_x() -> Result<i32>`: stands in for a DB call, immediately
returns `Ok(7)`. -/
def get_x : Unit → Except anyhow.Error Int :=
  fun _ => .ok 7

end infra

namespace api

/-- `api::add(y)`: wires `infra::get_x` into `domain::add`. -/
def add (y : Int) : Except anyhow.Error Int := do
  let result ← domain.add infra.get_x y
  return result

end api

namespace domain2

/-- Modelled from the spec: the repository's second, single-type-parameter
version of the orchestrator (its source file is not under `src/`); it takes
the fetch capability as one parameter and behaves as `domain::add` does:
await the fetch, propagate failure, otherwise delegate to `core::add`. -/
def add (get_x : Unit → Except anyhow.Error Int) (y : Int) :
    Except anyhow.Error Int := do
  let x ← get_x ()
  return core.add x y

end domain2

namespace api2

/-- Modelled from the spec: the second version's composition root, which
passes the infra fetch as an inline closure and whose entry point manually
blocks on the call (blocking is the identity in this embedding). -/
def add (y : Int) : Except anyhow.Error Int :=
  domain2.add (fun _ => infra.get_x ()) y

end api2

/-! ## Shared lemmas about the wraparound arithmetic -/

theorem wrap32_eq_of_isI32 {n : Int} (h : isI32 n) : wrap32 n = n := by
  unfold wrap32
  omega

theorem isI32_wrap32 (n : Int) : isI32 (wrap32 n) := by
  unfold wrap32
  omega

theorem wrap32_wrap32_left (a b : Int) : wrap32 (wrap32 a + b) = wrap32 (a + b) := by
  unfold wrap32
  omega

theorem wrap32_wrap32_right (a b : Int) : wrap32 (a + wrap32 b) = wrap32 (a + b) := by
  unfold wrap32
  omega

/-! ## Claim theorems -/

/-- Claim C4, counterexample: on the valid `i32` inputs `x = 2^31 - 1` and
`y = 1`, `core::add` does not return the mathematical sum `x + y`. -/
theorem core_add_not_exact_counterexample :
    ¬ core.add 2147483647 1 = 2147483647 + 1 := by decide

/-- Claim C4 (amended): for all `i32` inputs `x` and `y` whose mathematical
sum is representable as an `i32`, `core::add` returns exactly `x + y`; in
particular `core::add(1, 2) = 3`. -/
theorem core_add_exact (x y : Int) (hx : isI32 x) (hy : isI32 y)
    (hsum : isI32 (x + y)) :
    core.add x y = x + y ∧ core.add 1 2 = 3 := by
  refine ⟨?_, by decide⟩
  show wrap32 (x + y) = x + y
  exact wrap32_eq_of_isI32 hsum

/-- Witness for C4 at `x = 1`, `y = 2`. -/
theorem core_add_exact_witness :
    isI32 1 ∧ isI32 2 ∧ isI32 (1 + 2) ∧ (core.add 1 2 = 1 + 2 ∧ core.add 1 2 = 3) :=
  ⟨by decide, by decide, by decide, core_add_exact 1 2 (by decide) (by decide) (by decide)⟩

/-- Claim C1, counterexample: at the valid `i32` input `y = 2^31 - 1`,
`api::add` does not return `success(7 + y)` (the sum wraps around). -/
theorem api_add_overflow_counterexample :
    ¬ api.add 2147483647 = Except.ok (7 + 2147483647) := by decide

/-- Claim C1 (amended): for every `i32` operand `y` such that `7 + y` is
representable as an `i32`, `api::add` with the real `infra::get_x` wired in
returns `success(7 + y)`; in particular `api::add(3) = success(10)`. -/
theorem api_add_success (y : Int) (hy : isI32 y) (hsum : isI32 (7 + y)) :
    api.add y = Except.ok (7 + y) ∧ api.add 3 = Except.ok 10 := by
  refine ⟨?_, by decide⟩
  show Except.ok (core.add 7 y) = Except.ok (7 + y)
  rw [show core.add 7 y = 7 + y from wrap32_eq_of_isI32 hsum]

/-- Witness for C1 at `y = 3`. -/
theorem api_add_success_witness :
    isI32 3 ∧ isI32 (7 + 3) ∧ api.add 3 = Except.ok (7 + 3) :=
  ⟨by decide, by decide, by
    rw [show (7 + 3 : Int) = 10 by decide]
    exact (api_add_success 3 (by decide) (by decide)).2⟩

/-- Claim C2, counterexample: with a fetch that always succeeds with the
valid `i32` value `v = 2^31 - 1` and operand `y = 1`, `domain::add` does not
return `success(v + y)` (the sum wraps around). -/
theorem domain_add_overflow_counterexample :
    ¬ domain.add (fun _ => Except.ok 2147483647) 1 = Except.ok (2147483647 + 1) := by
  decide

/-- Claim C2 (amended): for every fetch that always succeeds with an `i32`
value `v` and every `i32` operand `y` such that `v + y` is representable as
an `i32`, `domain::add` returns `success(v + y)`; in particular with a fetch
producing `7` and operand `3` it returns `success(10)`. -/
theorem domain_add_success (v y : Int) (hv : isI32 v) (hy : isI32 y)
    (hsum : isI32 (v + y)) :
    domain.add (fun _ => Except.ok v) y = Except.ok (v + y) ∧
    domain.add (fun _ => Except.ok 7) 3 = Except.ok 10 := by
  refine ⟨?_, by decide⟩
  show Except.ok (core.add v y) = Except.ok (v + y)
  rw [show core.add v y = v + y from wrap32_eq_of_isI32 hsum]

/-- Witness for C2 at `v = 7`, `y = 3`. -/
theorem domain_add_success_witness :
    isI32 7 ∧ isI32 3 ∧ isI32 (7 + 3) ∧
    domain.add (fun _ => Except.ok 7) 3 = Except.ok 10 :=
  ⟨by decide, by decide, by decide,
    (domain_add_success 7 3 (by decide) (by decide) (by decide)).2⟩

/-- Claim C3: for every fetch that always fails with error `e` and every
operand `y`, `domain::add` returns exactly `failure(e)` (the error
unchanged), and `core::add` is never invoked in that call (no `coreCall`
event appears in the instrumented trace). -/
theorem domain_add_error_propagates (e : anyhow.Error) (y : Int) :
    domain.add (fun _ => Except.error e) y = Except.error e ∧
    Event.coreCall ∉ (domain.addTraced (fun _ => Except.error e) y).2 := by
  refine ⟨rfl, ?_⟩
  show Event.coreCall ∉ [Event.fetchCall]
  decide

/-- Claim C5: in every call of `domain::add`, the injected fetch operation
is invoked exactly once, and it is the first call the function makes, so
every `core::add` invocation (if any) strictly follows the completed fetch. -/
theorem domain_add_fetch_once_first (f : Unit → Except anyhow.Error Int) (y : Int) :
    (domain.addTraced f y).2.count Event.fetchCall = 1 ∧
    (domain.addTraced f y).2.head? = some Event.fetchCall := by
  unfold domain.addTraced
  cases h : f () <;> exact ⟨rfl, rfl⟩

/-- Claim C6: every invocation of `infra::get_x` immediately succeeds with
the constant value `7`, and it never fails with any error. -/
theorem infra_get_x_always_ok_7 :
    infra.get_x () = Except.ok 7 ∧
    ∀ e : anyhow.Error, infra.get_x () ≠ Except.error e :=
  ⟨rfl, fun _ h => by cases h⟩

/-- Claim C7: `core::add` is a total deterministic function of its two `i32`
arguments (it is defined as a Lean function, hence total and deterministic
with no error or panic outcome), and its result is always a valid `i32`
value — on wraparound it stays in range instead of failing. -/
theorem core_add_total : ∀ x y : Int, isI32 (core.add x y) :=
  fun x y => isI32_wrap32 (x + y)

/-- Claim C8: `core::add` on `i32` is commutative and associative, and `0`
is a right-neutral element on every valid `i32` input. -/
theorem core_add_comm_assoc_zero (x y z : Int) (hx : isI32 x) :
    core.add x y = core.add y x ∧
    core.add (core.add x y) z = core.add x (core.add y z) ∧
    core.add x 0 = x := by
  refine ⟨by unfold core.add; rw [Int.add_comm], ?_, ?_⟩
  · unfold core.add
    rw [wrap32_wrap32_left, wrap32_wrap32_right, Int.add_assoc]
  · show wrap32 (x + 0) = x
    rw [Int.add_zero]
    exact wrap32_eq_of_isI32 hx

/-- Witness for C8 at `x = 5`, `y = 6`, `z = 7`. -/
theorem core_add_comm_assoc_zero_witness :
    isI32 5 ∧
    (core.add 5 6 = core.add 6 5 ∧
     core.add (core.add 5 6) 7 = core.add 5 (core.add 6 7) ∧
     core.add 5 0 = 5) :=
  ⟨by decide, core_add_comm_assoc_zero 5 6 7 (by decide)⟩

/-- Claim C9: the two versions of the layered pattern (the two-type-parameter
generic orchestrator wired by `api.add`, and the single-type-parameter
inline-closure form wired by `api2.add`) are functionally identical: both
produce the same result on every input. -/
theorem api2_add_eq_api_add : ∀ y : Int, api2.add y = api.add y :=
  fun _ => rfl

/-- Claim C10: the whole pipeline computes in fixed-width 32-bit signed
arithmetic: when `x + y` is representable as an `i32` the result is the
mathematical sum, but at `x = 2^31 - 1`, `y = 1` the sum is not representable
and `core::add` (and hence `domain::add` and `api::add`) returns the sum
reduced modulo `2^32` and reinterpreted as signed (here `sum - 2^32`). -/
theorem core_add_wraps_mod_2_32 (x y : Int) (hx : isI32 x) (hy : isI32 y)
    (hsum : isI32 (x + y)) :
    core.add x y = x + y ∧
    ¬ isI32 (2147483647 + 1 : Int) ∧
    core.add 2147483647 1 = (2147483647 + 1) - 4294967296 ∧
    domain.add (fun _ => Except.ok 2147483647) 1 =
      Except.ok ((2147483647 + 1) - 4294967296) ∧
    api.add 2147483647 = Except.ok ((7 + 2147483647) - 4294967296) := by
  refine ⟨?_, by decide, by decide, by decide, by decide⟩
  show wrap32 (x + y) = x + y
  exact wrap32_eq_of_isI32 hsum

/-- Witness for C10 at `x = 1`, `y = 2`. -/
theorem core_add_wraps_mod_2_32_witness :
    isI32 1 ∧ isI32 2 ∧ isI32 (1 + 2) ∧ core.add 1 2 = 1 + 2 :=
  ⟨by decide, by decide, by decide,
    (core_add_wraps_mod_2_32 1 2 (by decide) (by decide) (by decide)).1⟩
